import Mathlib

/-!
Shallow embedding of the room/presence/broadcast core of
`real-time-chat-backend` (src/server.js) and proofs about it.

The server keeps three pieces of mutable state (server.js:160-161 and the
MongoDB `Message` collection):
  * `rooms`       : a JS array of room-name strings, initially
                    `["main", "chil", "work", "fun"]`;
  * `onlineUsers` : a JS object mapping a room name to an array of usernames,
                    initially `{}` — modelled as an association list;
  * the persisted message log — modelled as a list of records in insertion
    order, each carrying the server-assigned `createdAt`.

HTTP route handlers and socket event handlers are embedded as pure functions
from the state (plus per-socket fields `socket.id` / `socket.room` /
`socket.username` and the socket.io room subscriptions) to the new state, the
list of emitted events and the HTTP/ack result.  A MongoDB operation that can
reject is given an explicit `ok : Bool` outcome flag; a handler in which the
rejection is not caught returns `Except.error`, modelling the exception
propagating out of the handler (nothing further in the handler runs and no
event is emitted).
-/

set_option autoImplicit false

namespace Chat

/-- A persisted chat message: the fields of the `Message` Mongo model
(server.js:72-81), with the server-assigned `createdAt` timestamp. -/
structure Msg where
  room : String
  username : String
  text : String
  createdAt : Nat
  deriving DecidableEq, Repr

/-- The mutable server state: `rooms` (server.js:160), `onlineUsers`
(server.js:161, a JS object modelled as an association list keyed by room
name), and the persisted message log in insertion order. -/
structure ServerState where
  rooms : List String
  onlineUsers : List (String × List String)
  messages : List Msg
  deriving DecidableEq, Repr

/-- Per-connection state: socket.io's unique socket id, the `socket.room` and
`socket.username` fields set by the joinRoom handler (server.js:222-223), and
the set of socket.io rooms the socket has joined via `socket.join`
(server.js:221). -/
structure SocketState where
  sid : Nat
  room : Option String
  username : Option String
  joined : List String
  deriving DecidableEq, Repr

/-- Delivery scope of an emitted socket.io event. -/
inductive Target where
  /-- `socket.emit(...)`: delivered to this one socket only. -/
  | socket (sid : Nat)
  /-- `io.to(room).emit(...)`: every socket joined to `room`, sender included. -/
  | room (name : String)
  /-- `socket.to(room).emit(...)`: every socket joined to `room` except the
  sender. -/
  | roomExcept (name : String) (sender : Nat)
  /-- `io.emit(...)`: every connected socket. -/
  | all
  deriving DecidableEq, Repr

/-- The events the server emits, with their payloads. -/
inductive Event where
  | chatHistory (target : Target) (history : List Msg)
  | onlineUsers (target : Target) (users : List String)
  | roomsUpdated (target : Target) (rooms : List String)
  | chatMessage (target : Target) (username : String) (text : String) (createdAt : Nat)
  | typing (target : Target) (username : String) (isTyping : Bool)
  deriving DecidableEq, Repr

/-- Whether a socket in state `c` receives an event emitted with target `t`
(socket.io delivery semantics). -/
def delivers (t : Target) (c : SocketState) : Bool :=
  match t with
  | .socket i => c.sid == i
  | .room r => c.joined.contains r
  | .roomExcept r i => c.joined.contains r && c.sid != i
  | .all => true

/-- JS property read `m[k]`: the value stored under key `k`, if present. -/
def getEntry (m : List (String × List String)) (k : String) : Option (List String) :=
  match m with
  | [] => none
  | (k', v) :: rest => if k' = k then some v else getEntry rest k

/-- JS property write `m[k] = v`: overwrite the entry if present, else add it. -/
def setEntry (m : List (String × List String)) (k : String) (v : List String) :
    List (String × List String) :=
  match m with
  | [] => [(k, v)]
  | (k', v') :: rest => if k' = k then (k, v) :: rest else (k', v') :: setEntry rest k v

/-- JS `delete m[k]`: remove the key from the object. -/
def delEntry (m : List (String × List String)) (k : String) : List (String × List String) :=
  m.filter (fun e => e.1 != k)

/-- The initial room list `["main", "chil", "work", "fun"]` (server.js:160):
the four built-in rooms that exist at process start. -/
def builtinRooms : List String := ["main", "chil", "work", "fun"]

/-- The list hard-coded in the DELETE /rooms/:name handler (server.js:185):
`["general", "random", "tech", "music"]`. -/
def protectedRooms : List String := ["general", "random", "tech", "music"]

/-- The state at process start: the four built-in rooms, no presence entries,
empty message log. -/
def initialState : ServerState :=
  { rooms := builtinRooms, onlineUsers := [], messages := [] }

/-- Result of a REST room route: `res.json({success, rooms})` on success,
`res.status(400).json({error})` or `res.status(404).json({error})` on failure. -/
inductive RestResult where
  | ok (rooms : List String)
  | badRequest (error : String)
  | notFound (error : String)
  deriving DecidableEq, Repr

/-- Output of a REST room route handler: the state after the request, the
socket.io events it emitted, and the HTTP response. -/
structure RestOut where
  state : ServerState
  events : List Event
  result : RestResult
  deriving DecidableEq, Repr

/-- The `POST /rooms` handler (server.js:167-177): rejects a falsy (empty)
name with 400, rejects a name already in `rooms` with 400, otherwise pushes
the name verbatim (no trimming), initializes an empty presence entry and
broadcasts `roomsUpdated` to every connected socket. -/
def postRooms (s : ServerState) (name : String) : RestOut :=
  if name = "" then
    { state := s, events := [], result := .badRequest "Room name required" }
  else if s.rooms.contains name then
    { state := s, events := [], result := .badRequest "Room already exists" }
  else
    let rooms' := s.rooms ++ [name]
    { state := { s with rooms := rooms', onlineUsers := setEntry s.onlineUsers name [] }
      events := [.roomsUpdated .all rooms']
      result := .ok rooms' }

/-- The `DELETE /rooms/:name` handler (server.js:181-208): rejects a name in
`protectedRooms` with 400, rejects a name absent from `rooms` with 404,
otherwise filters the name out of `rooms`, deletes its `onlineUsers` entry if
present, and broadcasts `roomsUpdated` to every connected socket. -/
def deleteRoomRest (s : ServerState) (roomName : String) : RestOut :=
  if protectedRooms.contains roomName then
    { state := s, events := [], result := .badRequest "Default rooms cannot be deleted" }
  else if ¬ s.rooms.contains roomName then
    { state := s, events := [], result := .notFound "Room not found" }
  else
    let rooms' := s.rooms.filter (fun r => r != roomName)
    let ou' := if (getEntry s.onlineUsers roomName).isSome then
        delEntry s.onlineUsers roomName
      else s.onlineUsers
    { state := { s with rooms := rooms', onlineUsers := ou' }
      events := [.roomsUpdated .all rooms']
      result := .ok rooms' }

/-- JS `String.prototype.trim()` as used at server.js:243: drop leading and
trailing whitespace characters.  (Defined over the string's character list so
that it evaluates by kernel reduction; agrees with JS trim on the whitespace
characters that occur in this development.) -/
def jsTrim (s : String) : String :=
  ⟨((s.data.dropWhile Char.isWhitespace).reverse.dropWhile Char.isWhitespace).reverse⟩

/-- Ack payload passed to the `createRoom` callback (server.js:244-253):
`{error}` or `{success: true, rooms}`. -/
inductive AckResult where
  | ok (rooms : List String)
  | err (msg : String)
  deriving DecidableEq, Repr

/-- Output of the socket `createRoom` handler: resulting state, emitted
events, and the value passed to the requester's ack callback. -/
structure SocketOut where
  state : ServerState
  events : List Event
  ack : Option AckResult
  deriving DecidableEq, Repr

/-- The socket `createRoom` handler (server.js:241-254): trims the name,
rejects an empty trimmed name or a duplicate via the ack callback only,
otherwise pushes the trimmed name, initializes an empty presence entry,
broadcasts `roomsUpdated` to every connected socket and acks success. -/
def createRoomSocket (s : ServerState) (name : String) : SocketOut :=
  let n := jsTrim name
  if n = "" then
    { state := s, events := [], ack := some (.err "Room name required") }
  else if s.rooms.contains n then
    { state := s, events := [], ack := some (.err "Room already exists") }
  else
    let rooms' := s.rooms ++ [n]
    { state := { s with rooms := rooms', onlineUsers := setEntry s.onlineUsers n [] }
      events := [.roomsUpdated .all rooms']
      ack := some (.ok rooms') }

/-- The Mongo query `Message.find({room}).sort({createdAt: -1}).limit(limit)`
issued by the joinRoom handler (server.js:226-229).  The store's query
mechanics are an external collaborator (spec declares them opaque): per the
spec's data model, `createdAt` is server-assigned, monotonically
non-decreasing in insertion order, with ties broken by insertion order when
reading history, so the newest-first ordering of the room's messages is the
reverse of their insertion order. -/
def mongoRecentDesc (msgs : List Msg) (room : String) (limit : Nat) : List Msg :=
  ((msgs.filter (fun m => m.room == room)).reverse).take limit

/-- The presence-update block of the joinRoom handler (server.js:233-235):
`if (!onlineUsers[room]) onlineUsers[room] = []` then push the username only
if it is not already in the room's array. -/
def presenceJoin (ou : List (String × List String)) (room username : String) :
    List (String × List String) :=
  let ou1 := if (getEntry ou room).isNone then setEntry ou room [] else ou
  let cur := (getEntry ou1 room).getD []
  if cur.contains username then ou1 else setEntry ou1 room (cur ++ [username])

/-- The socket `joinRoom` handler (server.js:220-238).  In source order:
`socket.join(room)`, set `socket.username` and `socket.room`, `await` the
history query (the only rejection point, flagged by `fetchOk`; there is no
try/catch, so a rejection propagates out of the handler after the socket
fields were already set), emit `chatHistory` to the joining socket only,
update presence, and emit `onlineUsers` to the room. -/
def joinRoomHandler (fetchOk : Bool) (s : ServerState) (sk : SocketState)
    (room username : String) : SocketState × Except String (ServerState × List Event) :=
  let sk' := { sk with
    joined := if sk.joined.contains room then sk.joined else sk.joined ++ [room]
    username := some username
    room := some room }
  if fetchOk then
    let history := (mongoRecentDesc s.messages room 50).reverse
    let ou' := presenceJoin s.onlineUsers room username
    ( sk'
    , .ok ( { s with onlineUsers := ou' }
          , [ .chatHistory (.socket sk.sid) history
            , .onlineUsers (.room room) ((getEntry ou' room).getD []) ] ) )
  else
    (sk', .error "StoreError")

/-- The socket `chatMessage` handler (server.js:257-265): returns silently if
any of room/username/text is falsy (empty); otherwise `await Message.create`
persists the message with a server-assigned `createdAt` (`now`; `storeOk`
flags the rejection point — there is no try/catch, so a rejection propagates
out of the handler) and the payload is broadcast to every socket joined to
the room, sender included. -/
def chatMessageHandler (storeOk : Bool) (now : Nat) (s : ServerState)
    (room username text : String) : Except String (ServerState × List Event) :=
  if room = "" ∨ username = "" ∨ text = "" then
    .ok (s, [])
  else if storeOk then
    let msg : Msg := { room := room, username := username, text := text, createdAt := now }
    .ok ( { s with messages := s.messages ++ [msg] }
        , [.chatMessage (.room room) username text now] )
  else
    .error "StoreError"

/-- The socket `typing` handler (server.js:268-270): relays
`{username, isTyping}` via `socket.to(room)`, i.e. to every socket joined to
the room except the sender. -/
def typingHandler (sk : SocketState) (room username : String) (isTyping : Bool) :
    List Event :=
  [.typing (.roomExcept room sk.sid) username isTyping]

/-- The socket `disconnect` handler (server.js:273-280): if `socket.room` is
truthy and `onlineUsers` has an entry for it, filter the socket's username out
of that entry (JS `u !== username`) and broadcast the updated list to the
room. -/
def disconnectHandler (s : ServerState) (sk : SocketState) : ServerState × List Event :=
  match sk.room with
  | none => (s, [])
  | some room =>
    if room = "" then (s, [])
    else
      match getEntry s.onlineUsers room with
      | none => (s, [])
      | some users =>
        let users' := users.filter (fun u => some u != sk.username)
        ( { s with onlineUsers := setEntry s.onlineUsers room users' }
        , [.onlineUsers (.room room) users'] )

end Chat

namespace Chat

/-! ### Helper lemmas about the JS-object model -/

theorem getEntry_setEntry_self (m : List (String × List String)) (k : String)
    (v : List String) : getEntry (setEntry m k v) k = some v := by
  induction m with
  | nil => simp [setEntry, getEntry]
  | cons e rest ih =>
    obtain ⟨k', v'⟩ := e
    by_cases h : k' = k
    · simp [setEntry, getEntry, h]
    · simp [setEntry, getEntry, h, ih]

theorem getEntry_delEntry_self (m : List (String × List String)) (k : String) :
    getEntry (delEntry m k) k = none := by
  induction m with
  | nil => rfl
  | cons e rest ih =>
    obtain ⟨k', v'⟩ := e
    by_cases h : k' = k
    · simpa [delEntry, List.filter_cons, h] using ih
    · simpa [delEntry, List.filter_cons, h, getEntry] using ih

theorem contains_false_of_not_mem {l : List String} {a : String} (h : a ∉ l) :
    l.contains a = false := by
  simp [List.contains, h]

theorem contains_true_of_mem {l : List String} {a : String} (h : a ∈ l) :
    l.contains a = true := by
  simp [List.contains, h]

/-! ### Claim C1 -/

/-- C1: the claim says deleting any of the four built-in room names always
fails with Protected, so the built-ins can never leave the registry.  The
code evaluated at the failing input shows otherwise: the DELETE handler's
protected list `["general", "random", "tech", "music"]` (server.js:185) is
disjoint from the built-in list `["main", "chil", "work", "fun"]`
(server.js:160), so `DELETE /rooms/main` on the initial state succeeds and
removes the built-in room `"main"` — contradicting the repository's README
("Four default rooms are available and cannot be deleted") and the handler's
own comment. -/
theorem c1_delete_builtin_main_succeeds :
    "main" ∈ builtinRooms ∧
    initialState.rooms = builtinRooms ∧
    (deleteRoomRest initialState "main").result = RestResult.ok ["chil", "work", "fun"] ∧
    "main" ∉ (deleteRoomRest initialState "main").state.rooms ∧
    (deleteRoomRest initialState "main").events =
      [Event.roomsUpdated Target.all ["chil", "work", "fun"]] := by
  decide

/-! ### Claim C2 -/

/-- C2 counterexample: when the store insert rejects during `chatMessage`
(and likewise when the history query rejects during `joinRoom`), the handler
— which has no try/catch — ends in `Except.error`: the rejection propagates
out of the handler and the emitted-event list it would have produced is never
produced, so no structured error is reported to the calling connection,
contrary to the claim that the handler returns an error value to the caller
rather than propagating. -/
theorem c2_store_failure_counterexample :
    chatMessageHandler false 7 initialState "main" "alice" "hi" =
      Except.error "StoreError" ∧
    (joinRoomHandler false initialState ⟨1, none, none, []⟩ "main" "alice").2 =
      Except.error "StoreError" := by
  exact ⟨rfl, rfl⟩

/-- C2 (amended): a store failure during `chatMessage` (on a payload that
passes the emptiness guard, which runs before the store call) or during the
`joinRoom` history fetch is not caught by the handler: the rejection
propagates out of the handler, no event is emitted to any connection, and no
structured error reaches the caller. -/
theorem c2_store_failure_propagates (s : ServerState) (sk : SocketState) (now : Nat)
    (room username text : String)
    (hr : room ≠ "") (hu : username ≠ "") (ht : text ≠ "") :
    chatMessageHandler false now s room username text = Except.error "StoreError" ∧
    (joinRoomHandler false s sk room username).2 = Except.error "StoreError" := by
  constructor
  · simp [chatMessageHandler, hr, hu, ht]
  · rfl

/-- C2 witness: the amended theorem applied at a concrete payload. -/
theorem c2_store_failure_propagates_witness :
    chatMessageHandler false 9 initialState "main" "alice" "hello" =
      Except.error "StoreError" ∧
    (joinRoomHandler false initialState ⟨2, none, none, []⟩ "main" "alice").2 =
      Except.error "StoreError" :=
  c2_store_failure_propagates initialState ⟨2, none, none, []⟩ 9 "main" "alice" "hello"
    (by decide) (by decide) (by decide)

/-! ### Claim C3 -/

/-- C3 counterexample: the REST `POST /rooms` entry point performs no
trimming and no whitespace-only check — the whitespace-only name `" "`
(whose trim is empty) is accepted and stored verbatim, so a stored room name
can consist of whitespace, contrary to the claim that every create entry
point trims before comparison and storage and rejects whitespace-only names. -/
theorem c3_rest_create_does_not_trim :
    jsTrim " " = "" ∧
    (postRooms initialState " ").result =
      RestResult.ok ["main", "chil", "work", "fun", " "] ∧
    (postRooms initialState " ").state.rooms =
      ["main", "chil", "work", "fun", " "] := by
  decide

/-- C3 (amended): only the socket `createRoom` entry point trims the name
before the duplicate comparison and storage and rejects empty/whitespace-only
names; the REST `POST /rooms` entry point stores the submitted name verbatim,
rejecting only the empty string. -/
theorem c3_create_trimming (s : ServerState) (name : String) :
    (jsTrim name = "" →
      createRoomSocket s name =
        { state := s, events := [], ack := some (AckResult.err "Room name required") }) ∧
    (jsTrim name ≠ "" → s.rooms.contains (jsTrim name) = false →
      (createRoomSocket s name).state.rooms = s.rooms ++ [jsTrim name] ∧
      (createRoomSocket s name).ack = some (AckResult.ok (s.rooms ++ [jsTrim name]))) ∧
    (name ≠ "" → s.rooms.contains name = false →
      (postRooms s name).state.rooms = s.rooms ++ [name] ∧
      (postRooms s name).result = RestResult.ok (s.rooms ++ [name])) := by
  refine ⟨fun h => ?_, fun h hc => ?_, fun h hc => ?_⟩
  · simp [createRoomSocket, h]
  · have hm : jsTrim name ∉ s.rooms := by simpa using hc
    constructor <;> simp [createRoomSocket, h, hm]
  · have hm : name ∉ s.rooms := by simpa using hc
    constructor <;> simp [postRooms, h, hm]

/-- C3 witness: the amended theorem applied at concrete names — a
whitespace-only name rejected by the socket path, a padded name stored
trimmed by the socket path, and a padded name stored verbatim by the REST
path. -/
theorem c3_create_trimming_witness :
    createRoomSocket initialState "   " =
      { state := initialState, events := []
        ack := some (AckResult.err "Room name required") } ∧
    (createRoomSocket initialState " hey ").state.rooms =
      ["main", "chil", "work", "fun", "hey"] ∧
    (postRooms initialState " raw ").state.rooms =
      ["main", "chil", "work", "fun", " raw "] :=
  ⟨(c3_create_trimming initialState "   ").1 (by decide),
   by
    have h := ((c3_create_trimming initialState " hey ").2.1 (by decide) (by decide)).1
    simpa using h,
   by
    have h := ((c3_create_trimming initialState " raw ").2.2 (by decide) (by decide)).1
    simpa using h⟩

/-! ### Claim C4 -/

/-- C4 counterexample: `"general"` is not among the four built-in rooms and
is absent from the initial registry, yet `create("general")` followed by
`delete("general")` does not restore the registry: the DELETE handler rejects
`"general"` as protected (its protected list differs from the built-in list),
so the room list keeps the extra entry. -/
theorem c4_roundtrip_counterexample :
    "general" ∉ builtinRooms ∧
    "general" ∉ initialState.rooms ∧
    (postRooms initialState "general").result =
      RestResult.ok ["main", "chil", "work", "fun", "general"] ∧
    (deleteRoomRest (postRooms initialState "general").state "general").result =
      RestResult.badRequest "Default rooms cannot be deleted" ∧
    (deleteRoomRest (postRooms initialState "general").state "general").state.rooms =
      ["main", "chil", "work", "fun", "general"] := by
  decide

/-- C4 (amended): for every nonempty room name `r` outside the DELETE
handler's protected list `["general", "random", "tech", "music"]` and not
already in the registry, `create(r)` followed immediately by `delete(r)`
succeeds and returns the registry's room list to exactly its prior value,
with `r`'s presence entry discarded. -/
theorem c4_create_delete_roundtrip (s : ServerState) (r : String)
    (hne : r ≠ "") (hp : r ∉ protectedRooms) (hr : r ∉ s.rooms) :
    (postRooms s r).result = RestResult.ok (s.rooms ++ [r]) ∧
    (deleteRoomRest (postRooms s r).state r).result = RestResult.ok s.rooms ∧
    (deleteRoomRest (postRooms s r).state r).state.rooms = s.rooms ∧
    getEntry (deleteRoomRest (postRooms s r).state r).state.onlineUsers r = none := by
  have hpost : postRooms s r =
      ⟨{ s with rooms := s.rooms ++ [r], onlineUsers := setEntry s.onlineUsers r [] },
       [.roomsUpdated .all (s.rooms ++ [r])], .ok (s.rooms ++ [r])⟩ := by
    simp [postRooms, hne, hr]
  have hfilter : (s.rooms ++ [r]).filter (fun x => x != r) = s.rooms := by
    rw [List.filter_append]
    have h1 : s.rooms.filter (fun x => x != r) = s.rooms :=
      List.filter_eq_self.mpr (fun a ha => by
        simp [bne_iff_ne]
        exact fun hEq => hr (hEq ▸ ha))
    simp [h1]
  have hget : getEntry (setEntry s.onlineUsers r []) r = some [] :=
    getEntry_setEntry_self s.onlineUsers r []
  refine ⟨by rw [hpost], ?_, ?_, ?_⟩ <;>
    rw [hpost] <;>
    simp [deleteRoomRest, hp, hfilter, hget, getEntry_delEntry_self]

/-- C4 witness: the amended roundtrip applied at the concrete room name
`"newroom"` from the initial state. -/
theorem c4_create_delete_roundtrip_witness :
    (postRooms initialState "newroom").result =
      RestResult.ok (initialState.rooms ++ ["newroom"]) ∧
    (deleteRoomRest (postRooms initialState "newroom").state "newroom").result =
      RestResult.ok initialState.rooms ∧
    (deleteRoomRest (postRooms initialState "newroom").state "newroom").state.rooms =
      initialState.rooms ∧
    getEntry (deleteRoomRest (postRooms initialState "newroom").state
      "newroom").state.onlineUsers "newroom" = none :=
  c4_create_delete_roundtrip initialState "newroom" (by decide) (by decide) (by decide)

/-! ### Claim C5 -/

/-- C5: on every joinRoom, the joining connection — and only that connection
(the `chatHistory` emit targets the single socket, and a socket receives a
single-socket-targeted event exactly when it is that socket) — receives a
history snapshot consisting of the most recent 50 persisted messages of the
room (the snapshot is a suffix of the room's insertion-ordered message
stream of length `min 50 total`), delivered oldest-first (non-decreasing
`createdAt`, insertion order within ties). -/
theorem c5_join_history (s : ServerState) (sk : SocketState) (room username : String)
    (hchron : (s.messages.filter (fun m => m.room == room)).Pairwise
      (fun a b => a.createdAt ≤ b.createdAt)) :
    ∃ s' ou,
      (joinRoomHandler true s sk room username).2 =
        Except.ok (s',
          [ Event.chatHistory (Target.socket sk.sid)
              ((mongoRecentDesc s.messages room 50).reverse),
            Event.onlineUsers (Target.room room) ou ]) ∧
      (∃ pre, pre ++ (mongoRecentDesc s.messages room 50).reverse =
        s.messages.filter (fun m => m.room == room)) ∧
      ((mongoRecentDesc s.messages room 50).reverse).length =
        min 50 (s.messages.filter (fun m => m.room == room)).length ∧
      ((mongoRecentDesc s.messages room 50).reverse).Pairwise
        (fun a b => a.createdAt ≤ b.createdAt) ∧
      (∀ c : SocketState, delivers (Target.socket sk.sid) c = (c.sid == sk.sid)) := by
  have hsuf : (mongoRecentDesc s.messages room 50).reverse <:+
      s.messages.filter (fun m => m.room == room) := by
    unfold mongoRecentDesc
    have h1 := List.take_prefix 50 (s.messages.filter (fun m => m.room == room)).reverse
    have h2 := List.reverse_suffix.mpr h1
    simpa using h2
  refine ⟨_, _, rfl, hsuf, ?_, ?_, fun c => rfl⟩
  · simp [mongoRecentDesc, Nat.min_comm]
  · exact List.Pairwise.sublist hsuf.sublist hchron

/-- A concrete store for the C5 witness: four persisted messages, three of
them in room `"main"`, with a `createdAt` tie between the last two. -/
def c5SampleState : ServerState :=
  { rooms := builtinRooms, onlineUsers := []
    messages := [⟨"main", "alice", "one", 1⟩, ⟨"other", "bob", "x", 1⟩,
                 ⟨"main", "bob", "two", 2⟩, ⟨"main", "alice", "three", 2⟩] }

/-- C5 witness: the theorem applied to the concrete store `c5SampleState`. -/
theorem c5_join_history_witness :
    ∃ s' ou,
      (joinRoomHandler true c5SampleState ⟨1, none, none, []⟩ "main" "alice").2 =
        Except.ok (s',
          [ Event.chatHistory (Target.socket 1)
              ((mongoRecentDesc c5SampleState.messages "main" 50).reverse),
            Event.onlineUsers (Target.room "main") ou ]) ∧
      (∃ pre, pre ++ (mongoRecentDesc c5SampleState.messages "main" 50).reverse =
        c5SampleState.messages.filter (fun m => m.room == "main")) ∧
      ((mongoRecentDesc c5SampleState.messages "main" 50).reverse).length =
        min 50 (c5SampleState.messages.filter (fun m => m.room == "main")).length ∧
      ((mongoRecentDesc c5SampleState.messages "main" 50).reverse).Pairwise
        (fun a b => a.createdAt ≤ b.createdAt) ∧
      (∀ c : SocketState, delivers (Target.socket 1) c = (c.sid == 1)) :=
  c5_join_history c5SampleState ⟨1, none, none, []⟩ "main" "alice" (by decide)

/-! ### Claim C6 -/

/-- C6: `sendMessage(room, username, text)` is a silent no-op — no persisted
record, no broadcast — when any of the three fields is empty; otherwise the
message is appended to the store with the server-assigned `createdAt` and
`{username, text, createdAt}` is emitted with target `io.to(room)`, which a
socket receives exactly when it is joined to the room — sender included. -/
theorem c6_sendMessage (now : Nat) (s : ServerState) (room username text : String)
    (hr : room ≠ "") (hu : username ≠ "") (ht : text ≠ "") :
    chatMessageHandler true now s room username text =
      Except.ok ({ s with messages := s.messages ++ [⟨room, username, text, now⟩] },
        [Event.chatMessage (Target.room room) username text now]) ∧
    chatMessageHandler true now s "" username text = Except.ok (s, []) ∧
    chatMessageHandler true now s room "" text = Except.ok (s, []) ∧
    chatMessageHandler true now s room username "" = Except.ok (s, []) ∧
    (∀ c : SocketState, delivers (Target.room room) c = c.joined.contains room) := by
  refine ⟨?_, ?_, ?_, ?_, fun c => rfl⟩
  · simp [chatMessageHandler, hr, hu, ht]
  · simp [chatMessageHandler]
  · simp [chatMessageHandler]
  · simp [chatMessageHandler]

/-- C6 witness: the theorem applied at a concrete nonempty payload. -/
theorem c6_sendMessage_witness :
    chatMessageHandler true 7 initialState "main" "alice" "hi" =
      Except.ok ({ initialState with
          messages := initialState.messages ++ [⟨"main", "alice", "hi", 7⟩] },
        [Event.chatMessage (Target.room "main") "alice" "hi" 7]) ∧
    chatMessageHandler true 7 initialState "" "alice" "hi" = Except.ok (initialState, []) ∧
    chatMessageHandler true 7 initialState "main" "" "hi" = Except.ok (initialState, []) ∧
    chatMessageHandler true 7 initialState "main" "alice" "" = Except.ok (initialState, []) ∧
    (∀ c : SocketState, delivers (Target.room "main") c = c.joined.contains "main") :=
  c6_sendMessage 7 initialState "main" "alice" "hi" (by decide) (by decide) (by decide)

/-! ### Claim C7 -/

/-- C7: a `typing(room, username, isTyping)` event is relayed as a single
`typing` event with target `socket.to(room)`: the sending socket never
receives it (even if joined to the room), and any other socket receives it
exactly when it is joined to the room. -/
theorem c7_typing (sk : SocketState) (room username : String) (isTyping : Bool)
    (c : SocketState) (hc : c.sid ≠ sk.sid) :
    typingHandler sk room username isTyping =
      [Event.typing (Target.roomExcept room sk.sid) username isTyping] ∧
    delivers (Target.roomExcept room sk.sid) sk = false ∧
    delivers (Target.roomExcept room sk.sid) c = c.joined.contains room := by
  refine ⟨rfl, ?_, ?_⟩
  · simp [delivers]
  · simp [delivers, hc]

/-- C7 witness: the theorem applied to two concrete sockets joined to
`"main"`. -/
theorem c7_typing_witness :
    typingHandler ⟨1, none, none, ["main"]⟩ "main" "alice" true =
      [Event.typing (Target.roomExcept "main" 1) "alice" true] ∧
    delivers (Target.roomExcept "main" 1) ⟨1, none, none, ["main"]⟩ = false ∧
    delivers (Target.roomExcept "main" 1) ⟨2, none, none, ["main"]⟩ =
      List.contains ["main"] "main" :=
  c7_typing ⟨1, none, none, ["main"]⟩ "main" "alice" true ⟨2, none, none, ["main"]⟩
    (by decide)

/-! ### Claim C8 -/

/-- C8: when the socket `createRoom` handler fails — empty trimmed name or
name already in the registry — the server state (room list and every presence
entry) is unchanged, no event is broadcast, and the error is reported via the
requester's ack callback only. -/
theorem c8_createRoom_failure (s : ServerState) (name : String)
    (h : jsTrim name = "" ∨ jsTrim name ∈ s.rooms) :
    (createRoomSocket s name).state = s ∧
    (createRoomSocket s name).events = [] ∧
    ∃ e, (createRoomSocket s name).ack = some (AckResult.err e) := by
  by_cases h0 : jsTrim name = ""
  · refine ⟨?_, ?_, "Room name required", ?_⟩ <;> simp [createRoomSocket, h0]
  · have hmem : jsTrim name ∈ s.rooms := h.resolve_left h0
    refine ⟨?_, ?_, "Room already exists", ?_⟩ <;> simp [createRoomSocket, h0, hmem]

/-- C8 witness: the theorem applied to the already-existing room name
`"main"` in the initial state. -/
theorem c8_createRoom_failure_witness :
    (createRoomSocket initialState "main").state = initialState ∧
    (createRoomSocket initialState "main").events = [] ∧
    ∃ e, (createRoomSocket initialState "main").ack = some (AckResult.err e) :=
  c8_createRoom_failure initialState "main" (Or.inr (by decide))

/-! ### Claim C9 -/

/-- After the presence-update block runs, the room's entry exists and
contains the username. -/
theorem presenceJoin_mem (ou : List (String × List String)) (r u : String) :
    ∃ l, getEntry (presenceJoin ou r u) r = some l ∧ u ∈ l := by
  unfold presenceJoin
  cases hg : getEntry ou r with
  | none =>
    refine ⟨[u], ?_, by simp⟩
    simp [hg, getEntry_setEntry_self]
  | some l0 =>
    by_cases hc : u ∈ l0
    · refine ⟨l0, ?_, hc⟩
      simp [hg, hc]
    · refine ⟨l0 ++ [u], ?_, by simp⟩
      simp [hg, hc, getEntry_setEntry_self]

/-- C9: the joinRoom presence update is idempotent — running it a second time
with the same room and username returns the presence map unchanged (hence the
room's presence set has the same members, order and size as after a single
call), and a username already present in the room's entry is never appended
again (the update is the identity). -/
theorem c9_presenceJoin_idempotent (ou : List (String × List String)) (r u : String) :
    presenceJoin (presenceJoin ou r u) r u = presenceJoin ou r u ∧
    (((getEntry ou r).getD []).contains u = true → presenceJoin ou r u = ou) := by
  constructor
  · obtain ⟨l, hget, hmem⟩ := presenceJoin_mem ou r u
    generalize hj : presenceJoin ou r u = j at hget ⊢
    unfold presenceJoin
    simp [hget, hmem]
  · intro h
    cases hg : getEntry ou r with
    | none => rw [hg] at h; simp at h
    | some l0 =>
      rw [hg] at h
      simp only [Option.getD_some] at h
      have hm : u ∈ l0 := by simpa using h
      unfold presenceJoin
      simp [hg, hm]

/-- C9 witness: the idempotence equation applied at a concrete presence map,
and the already-present case discharged at a concrete input. -/
theorem c9_presenceJoin_idempotent_witness :
    presenceJoin (presenceJoin [("main", ["alice"])] "main" "bob") "main" "bob" =
      presenceJoin [("main", ["alice"])] "main" "bob" ∧
    presenceJoin [("main", ["alice"])] "main" "alice" = [("main", ["alice"])] :=
  ⟨(c9_presenceJoin_idempotent [("main", ["alice"])] "main" "bob").1,
   (c9_presenceJoin_idempotent [("main", ["alice"])] "main" "alice").2 (by decide)⟩

/-! ### Claim C10 -/

/-- C10: presence is tracked per username, not per connection.  When a socket
whose fields record room `r` and username `u` disconnects, the handler
filters `u` out of `r`'s presence entry unconditionally and broadcasts the
updated list to the room — it never consults the other connections. So even
when a second, distinct connection with the same username `u` is still
connected and joined to `r` (and therefore receives the removal broadcast),
`u` no longer appears in `r`'s presence snapshot. -/
theorem c10_disconnect_presence_by_username (s : ServerState) (sk other : SocketState)
    (r u : String) (users : List String)
    (hr : sk.room = some r) (hrne : r ≠ "") (hu : sk.username = some u)
    (he : getEntry s.onlineUsers r = some users)
    (hsid : other.sid ≠ sk.sid) (houser : other.username = some u)
    (hjoined : r ∈ other.joined) :
    disconnectHandler s sk =
      ({ s with onlineUsers :=
            setEntry s.onlineUsers r (users.filter (fun x => some x != some u)) },
       [Event.onlineUsers (Target.room r)
          (users.filter (fun x => some x != some u))]) ∧
    u ∉ (getEntry (disconnectHandler s sk).1.onlineUsers r).getD [] ∧
    delivers (Target.room r) other = true := by
  have hmain : disconnectHandler s sk =
      ({ s with onlineUsers :=
            setEntry s.onlineUsers r (users.filter (fun x => some x != some u)) },
       [Event.onlineUsers (Target.room r)
          (users.filter (fun x => some x != some u))]) := by
    unfold disconnectHandler
    rw [hr, hu]
    simp [hrne, he]
  refine ⟨hmain, ?_, ?_⟩
  · rw [hmain]
    simp [getEntry_setEntry_self, List.mem_filter]
  · simp [delivers]
    exact hjoined

/-- C10 witness: two concrete connections with ids 1 and 2, both joined to
`"main"` as `"alice"`; connection 1 disconnects. -/
theorem c10_disconnect_presence_by_username_witness :
    disconnectHandler
        { rooms := builtinRooms, onlineUsers := [("main", ["alice"])], messages := [] }
        ⟨1, some "main", some "alice", ["main"]⟩ =
      ({ rooms := builtinRooms,
         onlineUsers :=
           setEntry [("main", ["alice"])] "main"
             (["alice"].filter (fun x => some x != some "alice")),
         messages := [] },
       [Event.onlineUsers (Target.room "main")
          (["alice"].filter (fun x => some x != some "alice"))]) ∧
    "alice" ∉ (getEntry (disconnectHandler
        { rooms := builtinRooms, onlineUsers := [("main", ["alice"])], messages := [] }
        ⟨1, some "main", some "alice", ["main"]⟩).1.onlineUsers "main").getD [] ∧
    delivers (Target.room "main") ⟨2, some "main", some "alice", ["main"]⟩ = true :=
  c10_disconnect_presence_by_username
    { rooms := builtinRooms, onlineUsers := [("main", ["alice"])], messages := [] }
    ⟨1, some "main", some "alice", ["main"]⟩
    ⟨2, some "main", some "alice", ["main"]⟩
    "main" "alice" ["alice"]
    rfl (by decide) rfl rfl (by decide) rfl (by decide)
